import Mathlib

/-!
Verification development for the rollout core of `src/run.py`:
the `SequenceEnvironmentWrapper` history window, the `_batch_rollout`
driver loop, and the `print_metrics` aggregation.

Observations are an abstract type `α`; `np.zeros_like` is modelled by an
abstract zero constructor `zl : α → α` ("a zero-valued observation with the
same shape").  The optional jpeg round-trip is a pure transform applied
before an observation reaches the wrapper, so the embedded `reset`/`step`
receive the already-transformed observation.  Rewards and reward sums are
modelled as rationals; the latched `done` of the driver is a natural number
`0`/`1`, matching the `np.int32` arrays of the source.
-/

set_option autoImplicit false

namespace Run

universe u
variable {α : Type u} {β : Type u}

/-- Model of a `collections.deque` with `maxlen`: appending keeps the most
recent `maxlen` entries, dropping the oldest ones from the front. -/
def dequePush (maxlen : ℕ) (l : List β) (x : β) : List β :=
  (l ++ [x]).drop (l.length + 1 - maxlen)

/-- Model of the in-place assignment `stack[-1] = x` on a deque
(nonempty at every call site reached after a `reset`). -/
def setLast (l : List β) (x : β) : List β :=
  l.dropLast ++ [x]

/-- State of `SequenceEnvironmentWrapper` (run.py lines 39-49): the five
parallel deques, each with `maxlen = num_stack_frames`, oldest entry first.
`info` entries are opaque, so they are modelled as `Option Unit`
(`none` for the `None` pushed by `reset`/`pad_current_episode`). -/
structure SeqEnv (α : Type u) where
  num_stack_frames : ℕ
  obs_stack : List α
  act_stack : List ℤ
  rew_stack : List ℚ
  done_stack : List ℕ
  info_stack : List (Option Unit)

/-- `SequenceEnvironmentWrapper.__init__`: all five deques start empty. -/
def SeqEnv.init (α : Type u) (numStackFrames : ℕ) : SeqEnv α :=
  ⟨numStackFrames, [], [], [], [], []⟩

/-- `pad_current_episode(obs, n)` (run.py lines 97-104): append `n`
placeholder timesteps — zero observation, action `0`, reward `0`,
done `1`, info `None`. -/
def SeqEnv.pad_current_episode (zl : α → α) (obs : α) : SeqEnv α → ℕ → SeqEnv α
  | s, 0 => s
  | s, n + 1 =>
    SeqEnv.pad_current_episode zl obs
      { s with
        obs_stack := dequePush s.num_stack_frames s.obs_stack (zl obs)
        act_stack := dequePush s.num_stack_frames s.act_stack 0
        rew_stack := dequePush s.num_stack_frames s.rew_stack 0
        done_stack := dequePush s.num_stack_frames s.done_stack 1
        info_stack := dequePush s.num_stack_frames s.info_stack none } n

/-- `reset` (run.py lines 66-79): pad with `num_stack_frames - 1`
placeholder frames, then push the current frame `(obs, 0, 0, 0, None)`.
`obs` is the (already transformed) observation returned by the raw
environment's reset. -/
def SeqEnv.reset (zl : α → α) (obs : α) (s : SeqEnv α) : SeqEnv α :=
  let s1 := SeqEnv.pad_current_episode zl obs s (s.num_stack_frames - 1)
  { s1 with
    obs_stack := dequePush s1.num_stack_frames s1.obs_stack obs
    act_stack := dequePush s1.num_stack_frames s1.act_stack 0
    rew_stack := dequePush s1.num_stack_frames s1.rew_stack 0
    done_stack := dequePush s1.num_stack_frames s1.done_stack 0
    info_stack := dequePush s1.num_stack_frames s1.info_stack none }

/-- `step(action)` (run.py lines 81-95): overwrite the last action slot with
`a`, overwrite the last reward slot with the reward `envRew` returned by the
raw environment's step, then push the new frame `(envObs, 0, 0, info)`.
`envObs`/`envRew` are the (already transformed) observation and the reward
returned by `self.env.step(action)`.  Note: as in the source, `done_stack`
is not touched by `step`. -/
def SeqEnv.step (a : ℤ) (envObs : α) (envRew : ℚ) (s : SeqEnv α) : SeqEnv α :=
  let s1 := { s with act_stack := setLast s.act_stack a }
  let s2 := { s1 with rew_stack := setLast s1.rew_stack envRew }
  { s2 with
    obs_stack := dequePush s2.num_stack_frames s2.obs_stack envObs
    act_stack := dequePush s2.num_stack_frames s2.act_stack 0
    rew_stack := dequePush s2.num_stack_frames s2.rew_stack 0
    info_stack := dequePush s2.num_stack_frames s2.info_stack (some ()) }

/-- The dict built by `_get_obs` (run.py lines 145-149): the stacked
contents of the observation, action and reward deques, oldest first. -/
structure EpisodeHistory (α : Type u) where
  observations : List α
  actions : List ℤ
  rewards : List ℚ

/-- `_get_obs` (run.py lines 112-150): stack the current contents of the
three deques into the episode-history dict. -/
def SeqEnv.get_obs (s : SeqEnv α) : EpisodeHistory α :=
  ⟨s.obs_stack, s.act_stack, s.rew_stack⟩

/-- The keys of the dict literal built by `_get_obs` (run.py lines 145-149). -/
def episodeHistoryKeys : List String :=
  ["observations", "actions", "rewards"]

/-- One externally observable wrapper operation: a `reset` with the (already
transformed) observation returned by the raw environment, or a `step` with
its action and the raw environment's (observation, reward) output. -/
inductive WrapperOp (α : Type u) where
  | reset (obs : α)
  | step (a : ℤ) (obs : α) (rew : ℚ)

/-- Apply one wrapper operation to the wrapper state. -/
def applyOp (zl : α → α) (s : SeqEnv α) : WrapperOp α → SeqEnv α
  | .reset o => SeqEnv.reset zl o s
  | .step a o r => SeqEnv.step a o r s

/-- Apply a sequence of wrapper operations in order. -/
def runOps (zl : α → α) (s : SeqEnv α) (ops : List (WrapperOp α)) : SeqEnv α :=
  ops.foldl (applyOp zl) s

/-- Apply a sequence of `step` calls `(action, raw observation, raw reward)`
in order (no intervening resets). -/
def runSteps (s : SeqEnv α) (steps : List (ℤ × α × ℚ)) : SeqEnv α :=
  steps.foldl (fun s p => SeqEnv.step p.1 p.2.1 p.2.2 s) s

/-- Per-environment accounting of `_batch_rollout` (run.py lines 338-339):
one slot of the `rew_sum` float array and of the `done` int32 array. -/
structure SlotState where
  rew_sum : ℚ
  done : ℕ

/-- One tick of `_batch_rollout` for one environment slot (run.py lines
343, 354-356): `done = np.logical_or(done_raw, done_prev).astype(int32)`,
`rew = rew_raw * (1 - done)`, `rew_sum += rew`.  `raw` is the raw
`(done, reward)` pair this slot's environment reports on this tick. -/
def tickSlot (s : SlotState) (raw : Bool × ℚ) : SlotState :=
  let doneNew : ℕ := if raw.1 = true ∨ s.done ≠ 0 then 1 else 0
  { done := doneNew, rew_sum := s.rew_sum + raw.2 * (1 - (doneNew : ℚ)) }

/-- Run one slot through a sequence of raw `(done, reward)` tick outputs. -/
def runTicks (s : SlotState) (raws : List (Bool × ℚ)) : SlotState :=
  raws.foldl tickSlot s

/-- One tick of `_batch_rollout` across the whole batch: the numpy
`logical_or` / masking arithmetic is elementwise over the slots. -/
def tickBatch (states : List SlotState) (raws : List (Bool × ℚ)) : List SlotState :=
  List.zipWith tickSlot states raws

/-- The tick loop of one round (run.py lines 341-364), with the
early exit `if np.all(done): break` checked after each tick.  An
environment slot is an oracle `round → tick → (done, reward)` giving the
raw values the policy/environment composition produces (the policy is
opaque to the driver, so the per-tick raw outputs are arbitrary). -/
def runRound (envs : List (ℕ → ℕ → Bool × ℚ)) (c : ℕ) :
    ℕ → ℕ → List SlotState → List SlotState
  | 0, _, states => states
  | fuel + 1, t, states =>
    let states2 := tickBatch states (envs.map fun e => e c t)
    if states2.all fun s => s.done != 0 then states2
    else runRound envs c fuel (t + 1) states2

/-- `_batch_rollout` (run.py lines 321-367): assert
`num_episodes % num_batch == 0` before anything else, then run
`num_episodes / num_batch` rounds of `num_steps` ticks each, starting each
round from zeroed `rew_sum`/`done` arrays, and concatenate the per-round
reward sums.  A failed assert is `Except.error ()`. -/
def batchRollout (envs : List (ℕ → ℕ → Bool × ℚ)) (numEpisodes numSteps : ℕ) :
    Except Unit (List ℚ) :=
  let numBatch := envs.length
  if numEpisodes % numBatch = 0 then
    Except.ok
      (((List.range (numEpisodes / numBatch)).map fun c =>
        (runRound envs c numSteps 0 (List.replicate numBatch ⟨0, 0⟩)).map
          SlotState.rew_sum).flatten)
  else
    Except.error ()

/-- Insert into an ascending-sorted list of rationals. -/
def insertAsc (x : ℚ) : List ℚ → List ℚ
  | [] => [x]
  | y :: ys => if x ≤ y then x :: y :: ys else y :: insertAsc x ys

/-- Ascending insertion sort, modelling the sorting done inside
`np.median` / `np.partition`. -/
def sortAsc (l : List ℚ) : List ℚ :=
  l.foldr insertAsc []

/-- `np.mean`. -/
def mean (l : List ℚ) : ℚ :=
  l.sum / (l.length : ℚ)

/-- The square of `np.std`: the population variance
`mean((x - mean)^2)` (`np.std` uses `ddof = 0`). -/
def popVariance (l : List ℚ) : ℚ :=
  mean (l.map fun x => (x - mean l) * (x - mean l))

/-- `np.median`: middle element of the sorted data for odd length,
average of the two middle elements for even length. -/
def median (l : List ℚ) : ℚ :=
  let s := sortAsc l
  if l.length % 2 = 1 then s.getD (l.length / 2) 0
  else (s.getD (l.length / 2 - 1) 0 + s.getD (l.length / 2) 0) / 2

/-- `scipy.stats.trim_mean(l, proportiontocut = p)`:
`lowercut = int(p * nobs)`, `uppercut = nobs - lowercut`, mean of the
sorted data restricted to `[lowercut, uppercut)`. -/
def trim_mean (p : ℚ) (l : List ℚ) : ℚ :=
  let s := sortAsc l
  let lowercut := (⌊p * (l.length : ℚ)⌋).toNat
  let uppercut := l.length - lowercut
  mean ((s.drop lowercut).take (uppercut - lowercut))

/-- The four statistics printed by `print_metrics` (run.py lines 388-392),
with `np.std` represented by its square, the population variance:
(mean, population variance, median, trimmed mean at 0.25 per tail). -/
def printMetricsValues (l : List ℚ) : ℚ × ℚ × ℚ × ℚ :=
  (mean l, popVariance l, median l, trim_mean (1 / 4) l)

/-- Shape invariant of the wrapper state: the window capacity is `N` and
the four history deques all hold exactly `N` entries (the state of any
wrapper after its first `reset`). -/
def goodShape (s : SeqEnv α) (N : ℕ) : Prop :=
  s.num_stack_frames = N ∧ s.obs_stack.length = N ∧ s.act_stack.length = N ∧
    s.rew_stack.length = N ∧ s.done_stack.length = N

end Run

namespace Run

universe u
variable {α : Type u} {β : Type u}

theorem length_dequePush (N : ℕ) (l : List β) (x : β) :
    (dequePush N l x).length = min (l.length + 1) N := by
  simp only [dequePush, List.length_drop, List.length_append, List.length_cons,
    List.length_nil]
  omega

theorem foldl_dequePush (N : ℕ) (xs : List β) :
    ∀ l : List β, l.length ≤ N →
      List.foldl (dequePush N) l xs = (l ++ xs).drop (l.length + xs.length - N) := by
  induction xs with
  | nil =>
    intro l h
    simp [Nat.sub_eq_zero_of_le h]
  | cons x xs ih =>
    intro l h
    have hk : l.length + 1 - N ≤ (l ++ [x]).length := by
      simp only [List.length_append, List.length_cons, List.length_nil]
      omega
    have hlen : (dequePush N l x).length ≤ N := by
      rw [length_dequePush]; omega
    rw [List.foldl_cons, ih _ hlen, length_dequePush]
    show (dequePush N l x ++ xs).drop _ = _
    rw [dequePush, ← List.drop_append_of_le_length hk, List.drop_drop]
    have hassoc : l ++ x :: xs = (l ++ [x]) ++ xs := by simp
    rw [hassoc]
    congr 1
    simp only [List.length_cons]
    omega

theorem getLast?_dequePush (N : ℕ) (l : List β) (x : β) (hN : 1 ≤ N) :
    (dequePush N l x).getLast? = some x := by
  rw [dequePush, List.getLast?_eq_getElem?, List.getElem?_drop, List.length_drop]
  have hidx : l.length + 1 - N + ((l ++ [x]).length - (l.length + 1 - N) - 1)
      = l.length := by
    simp only [List.length_append, List.length_cons, List.length_nil]
    omega
  rw [hidx, List.getElem?_concat_length]

theorem pad_num_stack_frames (zl : α → α) (o : α) :
    ∀ (n : ℕ) (s : SeqEnv α),
      (SeqEnv.pad_current_episode zl o s n).num_stack_frames = s.num_stack_frames
  | 0, _ => rfl
  | n + 1, s => pad_num_stack_frames zl o n _

theorem pad_obs_stack (zl : α → α) (o : α) :
    ∀ (n : ℕ) (s : SeqEnv α),
      (SeqEnv.pad_current_episode zl o s n).obs_stack
        = List.foldl (dequePush s.num_stack_frames) s.obs_stack
            (List.replicate n (zl o))
  | 0, _ => rfl
  | n + 1, s => pad_obs_stack zl o n _

theorem pad_act_stack (zl : α → α) (o : α) :
    ∀ (n : ℕ) (s : SeqEnv α),
      (SeqEnv.pad_current_episode zl o s n).act_stack
        = List.foldl (dequePush s.num_stack_frames) s.act_stack (List.replicate n 0)
  | 0, _ => rfl
  | n + 1, s => pad_act_stack zl o n _

theorem pad_rew_stack (zl : α → α) (o : α) :
    ∀ (n : ℕ) (s : SeqEnv α),
      (SeqEnv.pad_current_episode zl o s n).rew_stack
        = List.foldl (dequePush s.num_stack_frames) s.rew_stack (List.replicate n 0)
  | 0, _ => rfl
  | n + 1, s => pad_rew_stack zl o n _

theorem pad_done_stack (zl : α → α) (o : α) :
    ∀ (n : ℕ) (s : SeqEnv α),
      (SeqEnv.pad_current_episode zl o s n).done_stack
        = List.foldl (dequePush s.num_stack_frames) s.done_stack (List.replicate n 1)
  | 0, _ => rfl
  | n + 1, s => pad_done_stack zl o n _

theorem reset_num_stack_frames (zl : α → α) (o : α) (s : SeqEnv α) :
    (SeqEnv.reset zl o s).num_stack_frames = s.num_stack_frames :=
  pad_num_stack_frames zl o _ s

/-- Generic computation of a stack after `reset`: pad `N - 1` placeholder
values `c`, then push the final value `x`.  Starting from any contents of
length at most `N`, the result is exactly the `N` freshly pushed entries. -/
theorem foldl_pad_push (N : ℕ) (l : List β) (c x : β) (hN : 1 ≤ N)
    (h : l.length ≤ N) :
    dequePush N (List.foldl (dequePush N) l (List.replicate (N - 1) c)) x
      = List.replicate (N - 1) c ++ [x] := by
  rw [← List.foldl_concat (dequePush N) l x (List.replicate (N - 1) c)]
  rw [foldl_dequePush N _ l h]
  have hlen : l.length + (List.replicate (N - 1) c ++ [x]).length - N = l.length := by
    simp only [List.length_append, List.length_replicate, List.length_cons,
      List.length_nil]
    omega
  rw [hlen]
  exact List.drop_left _ _

theorem reset_obs_stack (zl : α → α) (o : α) (s : SeqEnv α)
    (hN : 1 ≤ s.num_stack_frames) (h : s.obs_stack.length ≤ s.num_stack_frames) :
    (SeqEnv.reset zl o s).obs_stack
      = List.replicate (s.num_stack_frames - 1) (zl o) ++ [o] := by
  show dequePush _ _ o = _
  rw [pad_num_stack_frames, pad_obs_stack]
  exact foldl_pad_push _ _ _ _ hN h

theorem reset_act_stack (zl : α → α) (o : α) (s : SeqEnv α)
    (hN : 1 ≤ s.num_stack_frames) (h : s.act_stack.length ≤ s.num_stack_frames) :
    (SeqEnv.reset zl o s).act_stack = List.replicate s.num_stack_frames 0 := by
  show dequePush _ _ 0 = _
  rw [pad_num_stack_frames, pad_act_stack]
  rw [foldl_pad_push _ _ _ _ hN h, ← List.replicate_succ']
  congr 1
  omega

theorem reset_rew_stack (zl : α → α) (o : α) (s : SeqEnv α)
    (hN : 1 ≤ s.num_stack_frames) (h : s.rew_stack.length ≤ s.num_stack_frames) :
    (SeqEnv.reset zl o s).rew_stack = List.replicate s.num_stack_frames 0 := by
  show dequePush _ _ 0 = _
  rw [pad_num_stack_frames, pad_rew_stack]
  rw [foldl_pad_push _ _ _ _ hN h, ← List.replicate_succ']
  congr 1
  omega

theorem reset_done_stack (zl : α → α) (o : α) (s : SeqEnv α)
    (hN : 1 ≤ s.num_stack_frames) (h : s.done_stack.length ≤ s.num_stack_frames) :
    (SeqEnv.reset zl o s).done_stack
      = List.replicate (s.num_stack_frames - 1) 1 ++ [0] := by
  show dequePush _ _ 0 = _
  rw [pad_num_stack_frames, pad_done_stack]
  exact foldl_pad_push _ _ _ _ hN h

theorem step_num_stack_frames (a : ℤ) (o : α) (r : ℚ) (s : SeqEnv α) :
    (SeqEnv.step a o r s).num_stack_frames = s.num_stack_frames := rfl

theorem step_obs_stack (a : ℤ) (o : α) (r : ℚ) (s : SeqEnv α) :
    (SeqEnv.step a o r s).obs_stack
      = dequePush s.num_stack_frames s.obs_stack o := rfl

theorem step_act_stack (a : ℤ) (o : α) (r : ℚ) (s : SeqEnv α) :
    (SeqEnv.step a o r s).act_stack
      = dequePush s.num_stack_frames (setLast s.act_stack a) 0 := rfl

theorem step_rew_stack (a : ℤ) (o : α) (r : ℚ) (s : SeqEnv α) :
    (SeqEnv.step a o r s).rew_stack
      = dequePush s.num_stack_frames (setLast s.rew_stack r) 0 := rfl

theorem step_done_stack (a : ℤ) (o : α) (r : ℚ) (s : SeqEnv α) :
    (SeqEnv.step a o r s).done_stack = s.done_stack := rfl

theorem length_setLast (l : List β) (x : β) (h : 1 ≤ l.length) :
    (setLast l x).length = l.length := by
  simp only [setLast, List.length_append, List.length_dropLast, List.length_cons,
    List.length_nil]
  omega

theorem reset_goodShape (zl : α → α) (o : α) (s : SeqEnv α) (N : ℕ)
    (hF : s.num_stack_frames = N) (hN : 1 ≤ N)
    (h1 : s.obs_stack.length ≤ N) (h2 : s.act_stack.length ≤ N)
    (h3 : s.rew_stack.length ≤ N) (h4 : s.done_stack.length ≤ N) :
    goodShape (SeqEnv.reset zl o s) N := by
  subst hF
  refine ⟨reset_num_stack_frames zl o s, ?_, ?_, ?_, ?_⟩
  · rw [reset_obs_stack zl o s hN h1]
    simp only [List.length_append, List.length_replicate, List.length_cons,
      List.length_nil]
    omega
  · rw [reset_act_stack zl o s hN h2, List.length_replicate]
  · rw [reset_rew_stack zl o s hN h3, List.length_replicate]
  · rw [reset_done_stack zl o s hN h4]
    simp only [List.length_append, List.length_replicate, List.length_cons,
      List.length_nil]
    omega

theorem step_goodShape (a : ℤ) (o : α) (r : ℚ) (s : SeqEnv α) (N : ℕ)
    (hN : 1 ≤ N) (h : goodShape s N) : goodShape (SeqEnv.step a o r s) N := by
  obtain ⟨hF, h1, h2, h3, h4⟩ := h
  refine ⟨hF, ?_, ?_, ?_, ?_⟩
  · rw [step_obs_stack, length_dequePush, hF, h1]
    omega
  · rw [step_act_stack, length_dequePush, hF, length_setLast _ _ (by omega), h2]
    omega
  · rw [step_rew_stack, length_dequePush, hF, length_setLast _ _ (by omega), h3]
    omega
  · rw [step_done_stack]
    exact h4

theorem runOps_goodShape (zl : α → α) (ops : List (WrapperOp α)) (N : ℕ)
    (hN : 1 ≤ N) :
    ∀ s : SeqEnv α, goodShape s N → goodShape (runOps zl s ops) N := by
  induction ops with
  | nil => exact fun s h => h
  | cons op ops ih =>
    intro s h
    show goodShape (runOps zl (applyOp zl s op) ops) N
    refine ih _ ?_
    cases op with
    | reset o =>
      exact reset_goodShape zl o s N h.1 hN (le_of_eq h.2.1) (le_of_eq h.2.2.1)
        (le_of_eq h.2.2.2.1) (le_of_eq h.2.2.2.2)
    | step a o r => exact step_goodShape a o r s N hN h

theorem init_reset_goodShape (zl : α → α) (o : α) (N : ℕ) (hN : 1 ≤ N) :
    goodShape (SeqEnv.reset zl o (SeqEnv.init α N)) N :=
  reset_goodShape zl o _ N rfl hN (Nat.zero_le N) (Nat.zero_le N) (Nat.zero_le N)
    (Nat.zero_le N)

theorem runSteps_done_stack (steps : List (ℤ × α × ℚ)) :
    ∀ s : SeqEnv α, (runSteps s steps).done_stack = s.done_stack := by
  induction steps with
  | nil => exact fun _ => rfl
  | cons p steps ih =>
    intro s
    show (runSteps (SeqEnv.step p.1 p.2.1 p.2.2 s) steps).done_stack = _
    rw [ih, step_done_stack]

/-- Overwriting the last slot of a full deque with `x` and then pushing a
fresh placeholder `y` leaves `x` at position `N - 2` (the just-completed
timestep). -/
theorem dequePush_setLast_getElem (N : ℕ) (l : List β) (x y : β)
    (hN : 2 ≤ N) (hl : l.length = N) :
    (dequePush N (setLast l x) y)[N - 2]? = some x := by
  have hsl : (setLast l x).length = N := by
    rw [length_setLast _ _ (by omega)]
    exact hl
  rw [dequePush, List.getElem?_drop, hsl]
  have hassoc : setLast l x ++ [y] = l.dropLast ++ ([x] ++ [y]) := by
    simp [setLast]
  rw [hassoc]
  have hdl : l.dropLast.length = N - 1 := by
    rw [List.length_dropLast, hl]
  have hle : l.dropLast.length ≤ N + 1 - N + (N - 2) := by omega
  rw [List.getElem?_append_right hle, hdl]
  have hidx : N + 1 - N + (N - 2) - (N - 1) = 0 := by omega
  rw [hidx]
  rfl

/-- C1: in a rollout round, once a slot's done flag has latched true it stays
true on every subsequent tick, and its cumulative reward is unchanged by all
subsequent ticks, whatever raw done/reward values the environment reports. -/
theorem done_latch_monotone (s : SlotState) (raws : List (Bool × ℚ))
    (h : s.done ≠ 0) :
    (runTicks s raws).done ≠ 0 ∧ (runTicks s raws).rew_sum = s.rew_sum := by
  induction raws generalizing s with
  | nil => exact ⟨h, rfl⟩
  | cons raw raws ih =>
    have hd : (tickSlot s raw).done = 1 := by
      simp [tickSlot, h]
    have hr : (tickSlot s raw).rew_sum = s.rew_sum := by
      simp [tickSlot, h]
    obtain ⟨h1, h2⟩ := ih (tickSlot s raw) (by rw [hd]; exact one_ne_zero)
    refine ⟨h1, ?_⟩
    show (runTicks (tickSlot s raw) raws).rew_sum = s.rew_sum
    rw [h2, hr]

/-- Witness for `done_latch_monotone` at a concrete latched slot. -/
theorem done_latch_monotone_witness :
    (runTicks ⟨5, 1⟩ [(false, 3), (true, 2)]).done ≠ 0 ∧
      (runTicks ⟨5, 1⟩ [(false, 3), (true, 2)]).rew_sum = 5 :=
  done_latch_monotone ⟨5, 1⟩ [(false, 3), (true, 2)] (by decide)

/-- C2: each tick credits exactly `raw_reward * (1 - done_new)` where
`done_new` is the OR of the raw done flag and the previously latched flag;
in particular the reward reported on the very tick termination is first
observed contributes nothing. -/
theorem reward_mask_per_tick (s : SlotState) (d : Bool) (r : ℚ) :
    (tickSlot s (d, r)).rew_sum
        = s.rew_sum + r * (1 - ((d || decide (s.done ≠ 0)).toNat : ℚ)) ∧
      (d = true → (tickSlot s (d, r)).rew_sum = s.rew_sum) := by
  constructor
  · by_cases hd : d = true <;> by_cases hs : s.done = 0 <;>
      simp [tickSlot, hd, hs]
  · intro hd
    subst hd
    simp [tickSlot]

/-- Witness for `reward_mask_per_tick` on the tick where termination is
first observed. -/
theorem reward_mask_per_tick_witness :
    (tickSlot ⟨3, 0⟩ (true, 5)).rew_sum
        = (3 : ℚ) + 5 * (1 - ((true || decide ((0 : ℕ) ≠ 0)).toNat : ℚ)) ∧
      (true = true → (tickSlot ⟨3, 0⟩ (true, 5)).rew_sum = 3) :=
  reward_mask_per_tick ⟨3, 0⟩ true 5

/-- C8: when `num_episodes` is not a multiple of the number of
environments, `_batch_rollout` fails up front; the result is the same
error for every environment behaviour, so no environment call can have
influenced (or been needed for) the outcome. -/
theorem rollout_divisibility_error (envs : List (ℕ → ℕ → Bool × ℚ))
    (numEpisodes numSteps : ℕ) (h : numEpisodes % envs.length ≠ 0) :
    batchRollout envs numEpisodes numSteps = Except.error () := by
  simp [batchRollout, h]

/-- Witness for `rollout_divisibility_error`: 3 episodes over 2 slots. -/
theorem rollout_divisibility_error_witness :
    batchRollout [fun _ _ => (false, 0), fun _ _ => (false, 0)] 3 10
      = Except.error () :=
  rollout_divisibility_error _ 3 10 (by decide)

/-- Counterexample to the claimed std value in C9: on `[1, 2, 3, 4, 100]`
the population variance is `1522`, and `38.72 < 39` while `39 ^ 2 < 1522`,
so the population standard deviation (the square root of the variance)
exceeds `39` and is not approximately `38.72`. -/
theorem aggregation_std_cx :
    popVariance [1, 2, 3, 4, 100] = 1522 ∧
      (3872 / 100 : ℚ) < 39 ∧ (39 : ℚ) * 39 < 1522 := by
  refine ⟨?_, by norm_num, by norm_num⟩
  norm_num [popVariance, mean]

/-- C9 (amended): for `[1, 2, 3, 4, 100]` the aggregation yields
mean `22`, median `3`, trimmed mean `3`, and population variance `1522`,
whose square root (the population std) lies strictly between `39` and
`39.02` — approximately `39.01`, not `38.72`. -/
theorem aggregation_values :
    printMetricsValues [1, 2, 3, 4, 100] = (22, 1522, 3, 3) ∧
      (39 : ℚ) * 39 < 1522 ∧ (1522 : ℚ) < (3902 / 100) * (3902 / 100) := by
  refine ⟨?_, by norm_num, by norm_num⟩
  norm_num [printMetricsValues, mean, popVariance, median, trim_mean, sortAsc,
    insertAsc, Prod.ext_iff]

/-- C3: immediately after `reset()` with capacity `N ≥ 1`, the four history
sequences have length exactly `N`; the first `N - 1` terminal flags are `1`
and the last is `0`; the first `N - 1` observations are the zero observation
shaped like the reset observation; all padded actions and rewards are `0`. -/
theorem reset_pad_then_fill (zl : α → α) (o : α) (s : SeqEnv α)
    (hN : 1 ≤ s.num_stack_frames)
    (h1 : s.obs_stack.length ≤ s.num_stack_frames)
    (h2 : s.act_stack.length ≤ s.num_stack_frames)
    (h3 : s.rew_stack.length ≤ s.num_stack_frames)
    (h4 : s.done_stack.length ≤ s.num_stack_frames) :
    (SeqEnv.reset zl o s).obs_stack
        = List.replicate (s.num_stack_frames - 1) (zl o) ++ [o] ∧
      (SeqEnv.reset zl o s).act_stack = List.replicate s.num_stack_frames 0 ∧
      (SeqEnv.reset zl o s).rew_stack = List.replicate s.num_stack_frames 0 ∧
      (SeqEnv.reset zl o s).done_stack
        = List.replicate (s.num_stack_frames - 1) 1 ++ [0] ∧
      (SeqEnv.reset zl o s).obs_stack.length = s.num_stack_frames ∧
      (SeqEnv.reset zl o s).act_stack.length = s.num_stack_frames ∧
      (SeqEnv.reset zl o s).rew_stack.length = s.num_stack_frames ∧
      (SeqEnv.reset zl o s).done_stack.length = s.num_stack_frames := by
  have hg := reset_goodShape zl o s s.num_stack_frames rfl hN h1 h2 h3 h4
  exact ⟨reset_obs_stack zl o s hN h1, reset_act_stack zl o s hN h2,
    reset_rew_stack zl o s hN h3, reset_done_stack zl o s hN h4,
    hg.2.1, hg.2.2.1, hg.2.2.2.1, hg.2.2.2.2⟩

/-- Witness for `reset_pad_then_fill`: a fresh wrapper of capacity 4 reset
with observation 5. -/
theorem reset_pad_then_fill_witness :
    (SeqEnv.reset (fun _ => (0 : ℤ)) 5 (SeqEnv.init ℤ 4)).obs_stack
        = List.replicate 3 (0 : ℤ) ++ [5] ∧
      (SeqEnv.reset (fun _ => (0 : ℤ)) 5 (SeqEnv.init ℤ 4)).act_stack
        = List.replicate 4 0 ∧
      (SeqEnv.reset (fun _ => (0 : ℤ)) 5 (SeqEnv.init ℤ 4)).rew_stack
        = List.replicate 4 0 ∧
      (SeqEnv.reset (fun _ => (0 : ℤ)) 5 (SeqEnv.init ℤ 4)).done_stack
        = List.replicate 3 1 ++ [0] ∧
      (SeqEnv.reset (fun _ => (0 : ℤ)) 5 (SeqEnv.init ℤ 4)).obs_stack.length = 4 ∧
      (SeqEnv.reset (fun _ => (0 : ℤ)) 5 (SeqEnv.init ℤ 4)).act_stack.length = 4 ∧
      (SeqEnv.reset (fun _ => (0 : ℤ)) 5 (SeqEnv.init ℤ 4)).rew_stack.length = 4 ∧
      (SeqEnv.reset (fun _ => (0 : ℤ)) 5 (SeqEnv.init ℤ 4)).done_stack.length = 4 :=
  reset_pad_then_fill (fun _ => (0 : ℤ)) 5 (SeqEnv.init ℤ 4) (by decide)
    (by decide) (by decide) (by decide) (by decide)

/-- C4: after `step(a)` on a wrapper whose window is full (the state after
any reset), the action sequence holds `a` at position `capacity - 2` and the
reward sequence holds the reward returned by that step at the same
position. -/
theorem step_causal_shift (a : ℤ) (o : α) (r : ℚ) (s : SeqEnv α)
    (hN : 2 ≤ s.num_stack_frames)
    (ha : s.act_stack.length = s.num_stack_frames)
    (hr : s.rew_stack.length = s.num_stack_frames) :
    (SeqEnv.step a o r s).act_stack[s.num_stack_frames - 2]? = some a ∧
      (SeqEnv.step a o r s).rew_stack[s.num_stack_frames - 2]? = some r := by
  constructor
  · rw [step_act_stack]
    exact dequePush_setLast_getElem _ _ _ _ hN ha
  · rw [step_rew_stack]
    exact dequePush_setLast_getElem _ _ _ _ hN hr

/-- Witness for `step_causal_shift`: capacity 4, reset then one step with
action 7 and reward 1/2. -/
theorem step_causal_shift_witness :
    (SeqEnv.step 7 6 (1 / 2)
        (SeqEnv.reset (fun _ => (0 : ℤ)) 5 (SeqEnv.init ℤ 4))).act_stack[2]?
        = some 7 ∧
      (SeqEnv.step 7 6 (1 / 2)
        (SeqEnv.reset (fun _ => (0 : ℤ)) 5 (SeqEnv.init ℤ 4))).rew_stack[2]?
        = some (1 / 2) :=
  step_causal_shift 7 6 (1 / 2) (SeqEnv.reset (fun _ => (0 : ℤ)) 5 (SeqEnv.init ℤ 4))
    (by decide) (by decide) (by decide)

/-- C7: for every capacity `N ≥ 1` and any sequence of wrapper operations
beginning with a reset, the four history sequences always have equal
lengths, each at most `N`. -/
theorem window_shape_invariant (zl : α → α) (o0 : α) (N : ℕ) (hN : 1 ≤ N)
    (ops : List (WrapperOp α)) :
    (runOps zl (SeqEnv.reset zl o0 (SeqEnv.init α N)) ops).obs_stack.length
        = (runOps zl (SeqEnv.reset zl o0 (SeqEnv.init α N)) ops).act_stack.length ∧
      (runOps zl (SeqEnv.reset zl o0 (SeqEnv.init α N)) ops).act_stack.length
        = (runOps zl (SeqEnv.reset zl o0 (SeqEnv.init α N)) ops).rew_stack.length ∧
      (runOps zl (SeqEnv.reset zl o0 (SeqEnv.init α N)) ops).rew_stack.length
        = (runOps zl (SeqEnv.reset zl o0 (SeqEnv.init α N)) ops).done_stack.length ∧
      (runOps zl (SeqEnv.reset zl o0 (SeqEnv.init α N)) ops).done_stack.length ≤ N := by
  obtain ⟨hF, h1, h2, h3, h4⟩ :=
    runOps_goodShape zl ops N hN _ (init_reset_goodShape zl o0 N hN)
  exact ⟨by rw [h1, h2], by rw [h2, h3], by rw [h3, h4], le_of_eq h4⟩

/-- Witness for `window_shape_invariant`: capacity 2, one step then a
second reset. -/
theorem window_shape_invariant_witness :
    (runOps (fun _ => (0 : ℤ))
          (SeqEnv.reset (fun _ => (0 : ℤ)) 5 (SeqEnv.init ℤ 2))
          [WrapperOp.step 3 4 (1 / 2), WrapperOp.reset 6]).obs_stack.length
        = (runOps (fun _ => (0 : ℤ))
          (SeqEnv.reset (fun _ => (0 : ℤ)) 5 (SeqEnv.init ℤ 2))
          [WrapperOp.step 3 4 (1 / 2), WrapperOp.reset 6]).act_stack.length ∧
      (runOps (fun _ => (0 : ℤ))
          (SeqEnv.reset (fun _ => (0 : ℤ)) 5 (SeqEnv.init ℤ 2))
          [WrapperOp.step 3 4 (1 / 2), WrapperOp.reset 6]).act_stack.length
        = (runOps (fun _ => (0 : ℤ))
          (SeqEnv.reset (fun _ => (0 : ℤ)) 5 (SeqEnv.init ℤ 2))
          [WrapperOp.step 3 4 (1 / 2), WrapperOp.reset 6]).rew_stack.length ∧
      (runOps (fun _ => (0 : ℤ))
          (SeqEnv.reset (fun _ => (0 : ℤ)) 5 (SeqEnv.init ℤ 2))
          [WrapperOp.step 3 4 (1 / 2), WrapperOp.reset 6]).rew_stack.length
        = (runOps (fun _ => (0 : ℤ))
          (SeqEnv.reset (fun _ => (0 : ℤ)) 5 (SeqEnv.init ℤ 2))
          [WrapperOp.step 3 4 (1 / 2), WrapperOp.reset 6]).done_stack.length ∧
      (runOps (fun _ => (0 : ℤ))
          (SeqEnv.reset (fun _ => (0 : ℤ)) 5 (SeqEnv.init ℤ 2))
          [WrapperOp.step 3 4 (1 / 2), WrapperOp.reset 6]).done_stack.length ≤ 2 :=
  window_shape_invariant (fun _ => (0 : ℤ)) 5 2 (by decide)
    [WrapperOp.step 3 4 (1 / 2), WrapperOp.reset 6]

/-- Counterexample to C5: with capacity 4, `step` leaves the terminal-flag
sequence exactly as `reset` left it (`[1, 1, 1, 0]`); had `step` appended a
false flag with eviction, the sequence would have become `[1, 1, 0, 0]`. -/
theorem step_terminal_append_cx :
    (SeqEnv.step 7 6 (1 / 2)
        (SeqEnv.reset (fun _ => (0 : ℤ)) 5 (SeqEnv.init ℤ 4))).done_stack
        = (SeqEnv.reset (fun _ => (0 : ℤ)) 5 (SeqEnv.init ℤ 4)).done_stack ∧
      (SeqEnv.reset (fun _ => (0 : ℤ)) 5 (SeqEnv.init ℤ 4)).done_stack
        = [1, 1, 1, 0] ∧
      dequePush 4 [1, 1, 1, 0] (0 : ℕ) = [1, 1, 0, 0] ∧
      (SeqEnv.step 7 6 (1 / 2)
        (SeqEnv.reset (fun _ => (0 : ℤ)) 5 (SeqEnv.init ℤ 4))).done_stack
        ≠ [1, 1, 0, 0] := by
  refine ⟨rfl, by decide, by decide, by decide⟩

/-- C5 (amended): `step` never modifies the terminal-flag sequence (only
`reset`/`pad_current_episode` write it), so after any sequence of steps
following a reset the terminal-flag sequence still equals its post-reset
contents: first `capacity - 1` flags `1`, last flag `0`. -/
theorem step_terminal_flags_unchanged (zl : α → α) (o0 : α) (N : ℕ)
    (hN : 1 ≤ N) (steps : List (ℤ × α × ℚ)) :
    (∀ (s : SeqEnv α) (a : ℤ) (o : α) (r : ℚ),
        (SeqEnv.step a o r s).done_stack = s.done_stack) ∧
      (runSteps (SeqEnv.reset zl o0 (SeqEnv.init α N)) steps).done_stack
        = List.replicate (N - 1) 1 ++ [0] := by
  refine ⟨fun s a o r => rfl, ?_⟩
  rw [runSteps_done_stack]
  exact reset_done_stack zl o0 (SeqEnv.init α N) hN (Nat.zero_le N)

/-- Witness for `step_terminal_flags_unchanged`: capacity 4, two steps. -/
theorem step_terminal_flags_unchanged_witness :
    (∀ (s : SeqEnv ℤ) (a : ℤ) (o : ℤ) (r : ℚ),
        (SeqEnv.step a o r s).done_stack = s.done_stack) ∧
      (runSteps (SeqEnv.reset (fun _ => (0 : ℤ)) 5 (SeqEnv.init ℤ 4))
          [(7, 6, 1 / 2), (8, 9, 3)]).done_stack
        = List.replicate 3 1 ++ [0] :=
  step_terminal_flags_unchanged (fun _ => (0 : ℤ)) 5 4 (by decide)
    [(7, 6, 1 / 2), (8, 9, 3)]

/-- Counterexample to C6: the dict built by `_get_obs` has exactly the
three keys observations/actions/rewards — there is no terminal-flag entry,
so the snapshot does not return four sequences. -/
theorem snapshot_keys_cx :
    episodeHistoryKeys = ["observations", "actions", "rewards"] ∧
      episodeHistoryKeys.length ≠ 4 :=
  ⟨rfl, by decide⟩

/-- C6 (amended): `_get_obs` returns exactly the current contents of the
observation, action and reward sequences (terminal flags are not part of
the returned dict), oldest first, each of length `capacity` once a reset
has occurred; being a pure projection it leaves the wrapper state
untouched. -/
theorem snapshot_three_sequences (zl : α → α) (o0 : α) (N : ℕ) (hN : 1 ≤ N)
    (ops : List (WrapperOp α)) :
    SeqEnv.get_obs (runOps zl (SeqEnv.reset zl o0 (SeqEnv.init α N)) ops)
        = EpisodeHistory.mk
            (runOps zl (SeqEnv.reset zl o0 (SeqEnv.init α N)) ops).obs_stack
            (runOps zl (SeqEnv.reset zl o0 (SeqEnv.init α N)) ops).act_stack
            (runOps zl (SeqEnv.reset zl o0 (SeqEnv.init α N)) ops).rew_stack ∧
      (SeqEnv.get_obs
          (runOps zl (SeqEnv.reset zl o0 (SeqEnv.init α N)) ops)).observations.length
        = N ∧
      (SeqEnv.get_obs
          (runOps zl (SeqEnv.reset zl o0 (SeqEnv.init α N)) ops)).actions.length
        = N ∧
      (SeqEnv.get_obs
          (runOps zl (SeqEnv.reset zl o0 (SeqEnv.init α N)) ops)).rewards.length
        = N := by
  obtain ⟨hF, h1, h2, h3, h4⟩ :=
    runOps_goodShape zl ops N hN _ (init_reset_goodShape zl o0 N hN)
  exact ⟨rfl, h1, h2, h3⟩

/-- Witness for `snapshot_three_sequences`: capacity 2, one step. -/
theorem snapshot_three_sequences_witness :
    SeqEnv.get_obs (runOps (fun _ => (0 : ℤ))
          (SeqEnv.reset (fun _ => (0 : ℤ)) 5 (SeqEnv.init ℤ 2))
          [WrapperOp.step 3 4 (1 / 2)])
        = EpisodeHistory.mk
            (runOps (fun _ => (0 : ℤ))
              (SeqEnv.reset (fun _ => (0 : ℤ)) 5 (SeqEnv.init ℤ 2))
              [WrapperOp.step 3 4 (1 / 2)]).obs_stack
            (runOps (fun _ => (0 : ℤ))
              (SeqEnv.reset (fun _ => (0 : ℤ)) 5 (SeqEnv.init ℤ 2))
              [WrapperOp.step 3 4 (1 / 2)]).act_stack
            (runOps (fun _ => (0 : ℤ))
              (SeqEnv.reset (fun _ => (0 : ℤ)) 5 (SeqEnv.init ℤ 2))
              [WrapperOp.step 3 4 (1 / 2)]).rew_stack ∧
      (SeqEnv.get_obs (runOps (fun _ => (0 : ℤ))
          (SeqEnv.reset (fun _ => (0 : ℤ)) 5 (SeqEnv.init ℤ 2))
          [WrapperOp.step 3 4 (1 / 2)])).observations.length = 2 ∧
      (SeqEnv.get_obs (runOps (fun _ => (0 : ℤ))
          (SeqEnv.reset (fun _ => (0 : ℤ)) 5 (SeqEnv.init ℤ 2))
          [WrapperOp.step 3 4 (1 / 2)])).actions.length = 2 ∧
      (SeqEnv.get_obs (runOps (fun _ => (0 : ℤ))
          (SeqEnv.reset (fun _ => (0 : ℤ)) 5 (SeqEnv.init ℤ 2))
          [WrapperOp.step 3 4 (1 / 2)])).rewards.length = 2 :=
  snapshot_three_sequences (fun _ => (0 : ℤ)) 5 2 (by decide)
    [WrapperOp.step 3 4 (1 / 2)]

/-- C10: the history dicts returned by `reset` and by `step` always end
with action `0` and reward `0` — the placeholders for the current,
not-yet-acted-on frame. -/
theorem history_placeholder_last (zl : α → α) (o o2 : α) (a : ℤ) (r : ℚ)
    (s : SeqEnv α) (hN : 1 ≤ s.num_stack_frames) :
    (SeqEnv.get_obs (SeqEnv.reset zl o s)).actions.getLast? = some 0 ∧
      (SeqEnv.get_obs (SeqEnv.reset zl o s)).rewards.getLast? = some 0 ∧
      (SeqEnv.get_obs (SeqEnv.step a o2 r s)).actions.getLast? = some 0 ∧
      (SeqEnv.get_obs (SeqEnv.step a o2 r s)).rewards.getLast? = some 0 := by
  refine ⟨?_, ?_, ?_, ?_⟩
  · exact getLast?_dequePush _ _ _ (by rw [pad_num_stack_frames]; exact hN)
  · exact getLast?_dequePush _ _ _ (by rw [pad_num_stack_frames]; exact hN)
  · exact getLast?_dequePush _ _ _ hN
  · exact getLast?_dequePush _ _ _ hN

/-- Witness for `history_placeholder_last`: capacity 4. -/
theorem history_placeholder_last_witness :
    (SeqEnv.get_obs (SeqEnv.reset (fun _ => (0 : ℤ)) 5
        (SeqEnv.init ℤ 4))).actions.getLast? = some 0 ∧
      (SeqEnv.get_obs (SeqEnv.reset (fun _ => (0 : ℤ)) 5
        (SeqEnv.init ℤ 4))).rewards.getLast? = some 0 ∧
      (SeqEnv.get_obs (SeqEnv.step 7 6 (1 / 2)
        (SeqEnv.init ℤ 4))).actions.getLast? = some 0 ∧
      (SeqEnv.get_obs (SeqEnv.step 7 6 (1 / 2)
        (SeqEnv.init ℤ 4))).rewards.getLast? = some 0 :=
  history_placeholder_last (fun _ => (0 : ℤ)) 5 6 7 (1 / 2) (SeqEnv.init ℤ 4)
    (by decide)

end Run
